import Mathlib

/-!
Verification of the sonoluminescence simulator (SonolumiPhysics / Simulator).

The C++ source computes with `double`, `sin`, `exp` and `fmod`; here the
arithmetic is embedded over the real numbers: each field of the C++ classes
becomes a real-valued (or string-valued) field of a structure, each member
function a function on that structure.  `fmod` is modelled as C's `fmod`
(remainder after truncation toward zero).
-/

namespace Sonolumi

noncomputable section

/-- Truncation toward zero, as C's `trunc`. -/
def rtrunc (z : ℝ) : ℤ := if 0 ≤ z then ⌊z⌋ else ⌈z⌉

/-- C's `fmod x y = x - trunc (x / y) * y`. -/
def fmod (x y : ℝ) : ℝ := x - (rtrunc (x / y) : ℝ) * y

/-- The state of `SonolumiPhysics`: five parameters and four state variables,
field for field as in `SonolumiPhysics.h`. -/
structure SonolumiPhysics where
  m_frequency_hz : ℝ
  m_pressure_atm : ℝ
  m_ambient_radius_mm : ℝ
  m_gas_type : String
  m_liquid_type : String
  m_time : ℝ
  m_current_radius : ℝ
  m_max_temperature : ℝ
  m_light_intensity : ℝ

/-- The default constructor `SonolumiPhysics::SonolumiPhysics()`: every numeric
field zero, the label strings default-constructed (empty). -/
def SonolumiPhysics.init : SonolumiPhysics where
  m_frequency_hz := 0
  m_pressure_atm := 0
  m_ambient_radius_mm := 0
  m_gas_type := ""
  m_liquid_type := ""
  m_time := 0
  m_current_radius := 0
  m_max_temperature := 0
  m_light_intensity := 0

/-- `SonolumiPhysics::set_frequency`. -/
def SonolumiPhysics.set_frequency (s : SonolumiPhysics) (freq_hz : ℝ) :
    SonolumiPhysics :=
  { s with m_frequency_hz := freq_hz }

/-- `SonolumiPhysics::set_pressure`. -/
def SonolumiPhysics.set_pressure (s : SonolumiPhysics) (pressure_atm : ℝ) :
    SonolumiPhysics :=
  { s with m_pressure_atm := pressure_atm }

/-- `SonolumiPhysics::set_ambient_radius`: stores the parameter and also
resets the current radius to it. -/
def SonolumiPhysics.set_ambient_radius (s : SonolumiPhysics) (radius_mm : ℝ) :
    SonolumiPhysics :=
  { s with m_ambient_radius_mm := radius_mm, m_current_radius := radius_mm }

/-- `SonolumiPhysics::set_gas_type`. -/
def SonolumiPhysics.set_gas_type (s : SonolumiPhysics) (type : String) :
    SonolumiPhysics :=
  { s with m_gas_type := type }

/-- `SonolumiPhysics::set_liquid_type`. -/
def SonolumiPhysics.set_liquid_type (s : SonolumiPhysics) (type : String) :
    SonolumiPhysics :=
  { s with m_liquid_type := type }

/-- The five setter calls of `Simulator::set_parameters`, in source order,
i.e. the model-level `configure` operation of the spec. -/
def SonolumiPhysics.configure (s : SonolumiPhysics)
    (frequency_hz pressure_atm radius_mm : ℝ) (gas_type liquid_type : String) :
    SonolumiPhysics :=
  ((((s.set_frequency frequency_hz).set_pressure pressure_atm).set_ambient_radius
      radius_mm).set_gas_type gas_type).set_liquid_type liquid_type

/-- `SonolumiPhysics::model_thermal_emission`: 0 below 1000, otherwise
`exp ((temp - 1000) / 10000)`. -/
def model_thermal_emission (temp : ℝ) : ℝ :=
  if temp < 1000 then 0 else Real.exp ((temp - 1000) / 10000)

/-- The value of `m_time` after the increment `m_time += 1.0 / 60.0` at the
top of `simulate_step`. -/
def next_time (s : SonolumiPhysics) : ℝ := s.m_time + 1 / 60

/-- `double period = 1.0 / m_frequency_hz;`. -/
def period (s : SonolumiPhysics) : ℝ := 1 / s.m_frequency_hz

/-- `double t_in_period = fmod(m_time, period);`, where `m_time` has already
been incremented. -/
def t_in_period (s : SonolumiPhysics) : ℝ := fmod (next_time s) (period s)

/-- The radius assigned in the expansion branch:
`m_ambient_radius_mm * (1.0 + 1.0 * sin(t_in_period / period * M_PI))`. -/
def expansion_radius (s : SonolumiPhysics) : ℝ :=
  s.m_ambient_radius_mm *
    (1 + 1 * Real.sin (t_in_period s / period s * Real.pi))

/-- The radius assigned in the collapse branch:
`m_ambient_radius_mm * (1.0 - 0.5 * sin((t_in_period - period*0.9) / (period*0.1) * M_PI))`. -/
def collapse_radius (s : SonolumiPhysics) : ℝ :=
  s.m_ambient_radius_mm *
    (1 - 0.5 * Real.sin
      ((t_in_period s - period s * 0.9) / (period s * 0.1) * Real.pi))

/-- `SonolumiPhysics::simulate_step`, branch for branch as in the source:
increment time, compute the phase, then either the expansion assignment
(radius and temperature only) or the collapse assignment, the latter with the
severe-collapse sub-branch guarded by `m_current_radius < m_ambient_radius_mm * 0.5`. -/
def SonolumiPhysics.simulate_step (s : SonolumiPhysics) : SonolumiPhysics :=
  if t_in_period s < period s * 0.9 then
    { s with
        m_time := next_time s
        m_current_radius := expansion_radius s
        m_max_temperature := 0 }
  else if collapse_radius s < s.m_ambient_radius_mm * 0.5 then
    { s with
        m_time := next_time s
        m_current_radius := collapse_radius s
        m_max_temperature :=
          50000 * (s.m_ambient_radius_mm * 0.5 / collapse_radius s)
        m_light_intensity :=
          model_thermal_emission
            (50000 * (s.m_ambient_radius_mm * 0.5 / collapse_radius s)) }
  else
    { s with
        m_time := next_time s
        m_current_radius := collapse_radius s
        m_max_temperature := 0
        m_light_intensity := 0 }

/-- `SonolumiPhysics::get_radius`. -/
def SonolumiPhysics.get_radius (s : SonolumiPhysics) : ℝ := s.m_current_radius

/-- `SonolumiPhysics::get_max_temperature`. -/
def SonolumiPhysics.get_max_temperature (s : SonolumiPhysics) : ℝ :=
  s.m_max_temperature

/-- `SonolumiPhysics::get_emitted_light`. -/
def SonolumiPhysics.get_emitted_light (s : SonolumiPhysics) : ℝ :=
  s.m_light_intensity

/-- The state of the `Simulator` facade: the owned physics model and the three
cached output fields. -/
structure Simulator where
  physics : SonolumiPhysics
  current_bubble_radius : ℝ
  current_peak_temperature : ℝ
  current_light_intensity : ℝ

/-- `Simulator::set_parameters`: forwards the five parameters to the physics
engine via its setters, then resets the three cached outputs. -/
def Simulator.set_parameters (sim : Simulator)
    (frequency_hz pressure_atm radius_mm : ℝ) (gas_type liquid_type : String) :
    Simulator where
  physics :=
    sim.physics.configure frequency_hz pressure_atm radius_mm gas_type
      liquid_type
  current_bubble_radius := radius_mm
  current_peak_temperature := 0
  current_light_intensity := 0

/-- `Simulator::Simulator()`: zero-initialized caches and a default-constructed
physics member, then `set_parameters(20000.0, 1.35, 0.005, "Argon", "Water")`. -/
def Simulator.init : Simulator :=
  Simulator.set_parameters
    { physics := SonolumiPhysics.init
      current_bubble_radius := 0
      current_peak_temperature := 0
      current_light_intensity := 0 }
    20000 1.35 0.005 ("Argon") ("Water")

/-- `Simulator::step`: one physics step, then copy the three outputs into the
cache. -/
def Simulator.step (sim : Simulator) : Simulator :=
  let physics := sim.physics.simulate_step
  { physics := physics
    current_bubble_radius := physics.get_radius
    current_peak_temperature := physics.get_max_temperature
    current_light_intensity := physics.get_emitted_light }

/-- `Simulator::get_bubble_radius`. -/
def Simulator.get_bubble_radius (sim : Simulator) : ℝ :=
  sim.current_bubble_radius

/-- `Simulator::get_peak_temperature`. -/
def Simulator.get_peak_temperature (sim : Simulator) : ℝ :=
  sim.current_peak_temperature

/-- `Simulator::get_light_intensity`. -/
def Simulator.get_light_intensity (sim : Simulator) : ℝ :=
  sim.current_light_intensity

/-- States of the physics model reachable from a fresh construction by any
sequence of valid configurations (positive frequency and ambient radius) and
simulation steps. -/
inductive Reachable : SonolumiPhysics → Prop where
  | init : Reachable SonolumiPhysics.init
  | config {s : SonolumiPhysics} {f p a : ℝ} {g l : String} :
      Reachable s → 0 < f → 0 < a → Reachable (s.configure f p a g l)
  | step {s : SonolumiPhysics} :
      Reachable s → Reachable s.simulate_step

/-! ### Helper lemmas -/

/-- With `sin ≤ 1`, the dip factor `1 - 0.5 * sin θ` never drops below `0.5`,
so for a nonnegative ambient radius the collapse-phase radius never drops
below half the ambient radius, whatever the phase. -/
theorem half_le_dip {a : ℝ} (ha : 0 ≤ a) (θ : ℝ) :
    a * 0.5 ≤ a * (1 - 0.5 * Real.sin θ) := by
  have h1 : 0 ≤ a * (1 - Real.sin θ) :=
    mul_nonneg ha (by linarith [Real.sin_le_one θ])
  nlinarith

/-- The collapse-branch radius is at least half the ambient radius. -/
theorem collapse_radius_ge {s : SonolumiPhysics}
    (ha : 0 ≤ s.m_ambient_radius_mm) :
    s.m_ambient_radius_mm * 0.5 ≤ collapse_radius s :=
  half_le_dip ha _

/-- Every step of `simulate_step` adds exactly `1/60` to `m_time`,
whichever branch is taken. -/
theorem simulate_step_time (s : SonolumiPhysics) :
    s.simulate_step.m_time = s.m_time + 1 / 60 := by
  unfold SonolumiPhysics.simulate_step
  split
  · rfl
  · split <;> rfl

/-- Reachability invariant: the ambient radius is nonnegative and the peak
temperature and the stored light intensity are both zero (the severe-collapse
branch, the only writer of a nonzero value, never fires over the reals). -/
theorem reachable_inv {s : SonolumiPhysics} (h : Reachable s) :
    0 ≤ s.m_ambient_radius_mm ∧ s.m_max_temperature = 0 ∧
      s.m_light_intensity = 0 := by
  induction h with
  | init => exact ⟨le_refl 0, rfl, rfl⟩
  | config h hf ha ih => exact ⟨ha.le, ih.2.1, ih.2.2⟩
  | step h ih =>
      obtain ⟨ha, ht, hl⟩ := ih
      unfold SonolumiPhysics.simulate_step
      split
      · exact ⟨ha, rfl, hl⟩
      · split
        · rename_i hsev
          exact absurd hsev (not_lt.mpr (collapse_radius_ge ha))
        · exact ⟨ha, rfl, rfl⟩

/-- The canonical configured state: a freshly constructed model configured
with the facade's default parameters. -/
def s0 : SonolumiPhysics :=
  SonolumiPhysics.init.configure 20000 1.35 0.005 ("Argon") ("Water")

theorem s0_fields :
    s0.m_frequency_hz = 20000 ∧ s0.m_ambient_radius_mm = 0.005 ∧
      s0.m_time = 0 := ⟨rfl, rfl, rfl⟩

theorem s0_reachable : Reachable s0 :=
  Reachable.config Reachable.init (by norm_num) (by norm_num)

theorem period_s0 : period s0 = 1 / 20000 := rfl

/-- The first-step phase of the default configuration:
`fmod (1/60) (1/20000) = 1/60000`, since `⌊(1/60)/(1/20000)⌋ = ⌊1000/3⌋ = 333`. -/
theorem t_in_period_s0 : t_in_period s0 = 1 / 60000 := by
  have hdiv : ((0 : ℝ) + 1 / 60) / (1 / 20000) = 1000 / 3 := by norm_num
  have hfloor : ⌊(1000 / 3 : ℝ)⌋ = 333 := by
    rw [Int.floor_eq_iff]; norm_num
  unfold t_in_period fmod next_time rtrunc
  rw [show s0.m_time = (0 : ℝ) from rfl, period_s0, hdiv]
  rw [if_pos (by norm_num : (0:ℝ) ≤ 1000 / 3), hfloor]
  norm_num

/-- Branch characterization: expansion phase. -/
theorem step_expansion {s : SonolumiPhysics}
    (h : t_in_period s < period s * 0.9) :
    s.simulate_step =
      { s with
          m_time := next_time s
          m_current_radius := expansion_radius s
          m_max_temperature := 0 } := by
  unfold SonolumiPhysics.simulate_step
  rw [if_pos h]

/-- Branch characterization: severe collapse. -/
theorem step_severe {s : SonolumiPhysics}
    (h : ¬ t_in_period s < period s * 0.9)
    (hsev : collapse_radius s < s.m_ambient_radius_mm * 0.5) :
    s.simulate_step =
      { s with
          m_time := next_time s
          m_current_radius := collapse_radius s
          m_max_temperature :=
            50000 * (s.m_ambient_radius_mm * 0.5 / collapse_radius s)
          m_light_intensity :=
            model_thermal_emission
              (50000 * (s.m_ambient_radius_mm * 0.5 / collapse_radius s)) } := by
  unfold SonolumiPhysics.simulate_step
  rw [if_neg h, if_pos hsev]

/-- Branch characterization: mild collapse. -/
theorem step_mild {s : SonolumiPhysics}
    (h : ¬ t_in_period s < period s * 0.9)
    (hsev : ¬ collapse_radius s < s.m_ambient_radius_mm * 0.5) :
    s.simulate_step =
      { s with
          m_time := next_time s
          m_current_radius := collapse_radius s
          m_max_temperature := 0
          m_light_intensity := 0 } := by
  unfold SonolumiPhysics.simulate_step
  rw [if_neg h, if_neg hsev]

/-! ### Claims -/

/-- C1: for every reachable state of a validly configured model, whenever the
step about to be taken computes a phase `t_in_period < 0.9 * period`
(expansion phase), then after that call both the peak temperature and the
emitted light read back as `0`, regardless of the radius value. -/
theorem spec_C1 (s : SonolumiPhysics) (h : Reachable s)
    (hexp : t_in_period s < 0.9 * period s) :
    s.simulate_step.get_max_temperature = 0 ∧
      s.simulate_step.get_emitted_light = 0 := by
  obtain ⟨-, -, hl⟩ := reachable_inv h
  unfold SonolumiPhysics.get_max_temperature SonolumiPhysics.get_emitted_light
    SonolumiPhysics.simulate_step
  rw [if_pos (show t_in_period s < period s * 0.9 by linarith)]
  exact ⟨rfl, hl⟩

/-- Witness for C1 at the default configuration: the first step falls in the
expansion phase (`fmod (1/60) (1/20000) = 1/60000 < 0.9/20000`) and zeroes
both outputs. -/
theorem spec_C1_witness :
    Reachable s0 ∧ t_in_period s0 < 0.9 * period s0 ∧
      (s0.simulate_step.get_max_temperature = 0 ∧
        s0.simulate_step.get_emitted_light = 0) := by
  have hexp : t_in_period s0 < 0.9 * period s0 := by
    rw [t_in_period_s0, period_s0]; norm_num
  exact ⟨s0_reachable, hexp, spec_C1 s0 s0_reachable hexp⟩

/-- C2: over the reals the collapse-phase dip factor satisfies
`0.5 * a ≤ a * (1 - 0.5 * sin θ)` for every phase `θ` (since `sin ≤ 1`), so
the severe-collapse branch guard `collapse_radius < ambient * 0.5` never
holds, and consequently every reachable state has peak temperature `0` and
emitted light `0`. -/
theorem spec_C2 (s : SonolumiPhysics) (h : Reachable s) :
    (∀ θ : ℝ, 0.5 * s.m_ambient_radius_mm ≤
        s.m_ambient_radius_mm * (1 - 0.5 * Real.sin θ)) ∧
      ¬ collapse_radius s < s.m_ambient_radius_mm * 0.5 ∧
      s.m_max_temperature = 0 ∧ s.m_light_intensity = 0 := by
  obtain ⟨ha, ht, hl⟩ := reachable_inv h
  refine ⟨fun θ => ?_, not_lt.mpr (collapse_radius_ge ha), ht, hl⟩
  have := half_le_dip ha θ
  linarith

/-- Witness for C2 at the default configuration. -/
theorem spec_C2_witness :
    Reachable s0 ∧
      ((∀ θ : ℝ, 0.5 * s0.m_ambient_radius_mm ≤
          s0.m_ambient_radius_mm * (1 - 0.5 * Real.sin θ)) ∧
        ¬ collapse_radius s0 < s0.m_ambient_radius_mm * 0.5 ∧
        s0.m_max_temperature = 0 ∧ s0.m_light_intensity = 0) :=
  ⟨s0_reachable, spec_C2 s0 s0_reachable⟩

/-- C3: immediately after `set_parameters` / `configure` with valid
parameters — from any facade state, and from any reachable model state —
the radius accessor returns the new ambient radius and the temperature and
light accessors return `0`. -/
theorem spec_C3 (sim : Simulator) (s : SonolumiPhysics)
    (f p a : ℝ) (g l : String) (hf : 0 < f) (ha : 0 < a)
    (hs : Reachable s) :
    ((sim.set_parameters f p a g l).get_bubble_radius = a ∧
      (sim.set_parameters f p a g l).get_peak_temperature = 0 ∧
      (sim.set_parameters f p a g l).get_light_intensity = 0) ∧
    ((s.configure f p a g l).get_radius = a ∧
      (s.configure f p a g l).get_max_temperature = 0 ∧
      (s.configure f p a g l).get_emitted_light = 0) := by
  obtain ⟨-, ht, hl⟩ := reachable_inv hs
  exact ⟨⟨rfl, rfl, rfl⟩, rfl, ht, hl⟩

/-- Witness for C3: reconfigure the default facade and the canonical
configured model with fresh valid parameters. -/
theorem spec_C3_witness :
    (0 : ℝ) < 30000 ∧ (0 : ℝ) < 0.004 ∧ Reachable s0 ∧
      (((Simulator.init.set_parameters 30000 1 0.004 ("Xenon")
            ("Glycerin")).get_bubble_radius = 0.004 ∧
        (Simulator.init.set_parameters 30000 1 0.004 ("Xenon")
            ("Glycerin")).get_peak_temperature = 0 ∧
        (Simulator.init.set_parameters 30000 1 0.004 ("Xenon")
            ("Glycerin")).get_light_intensity = 0) ∧
      ((s0.configure 30000 1 0.004 ("Xenon") ("Glycerin")).get_radius =
          0.004 ∧
        (s0.configure 30000 1 0.004 ("Xenon")
            ("Glycerin")).get_max_temperature = 0 ∧
        (s0.configure 30000 1 0.004 ("Xenon")
            ("Glycerin")).get_emitted_light = 0)) :=
  ⟨by norm_num, by norm_num, s0_reachable,
    spec_C3 Simulator.init s0 30000 1 0.004 ("Xenon") ("Glycerin")
      (by norm_num) (by norm_num) s0_reachable⟩

/-- C4: one call to `simulate_step`, on a state with positive frequency,
computes the phase `t_in_period = (elapsed + 1/60) mod (1/frequency)` and
then: in the expansion phase sets the radius to
`ambient * (1 + sin (π * t/period))`; otherwise sets the radius to the
collapse dip formula, and within the collapse phase either (radius below half
ambient) sets `temperature = 50000 * (0.5*ambient/radius)` and
`light = emission temperature`, or else zeroes temperature and light. -/
theorem spec_C4 (s : SonolumiPhysics) (hf : 0 < s.m_frequency_hz) :
    t_in_period s = fmod (s.m_time + 1 / 60) (1 / s.m_frequency_hz) ∧
    (t_in_period s < 0.9 * period s →
      s.simulate_step.m_current_radius =
        s.m_ambient_radius_mm *
          (1 + Real.sin (Real.pi * t_in_period s / period s))) ∧
    (¬ t_in_period s < 0.9 * period s →
      s.simulate_step.m_current_radius =
        s.m_ambient_radius_mm *
          (1 - 0.5 * Real.sin
            (Real.pi * (t_in_period s - 0.9 * period s) / (0.1 * period s))) ∧
      (s.simulate_step.m_current_radius < 0.5 * s.m_ambient_radius_mm →
        s.simulate_step.m_max_temperature =
          50000 *
            (0.5 * s.m_ambient_radius_mm / s.simulate_step.m_current_radius) ∧
        s.simulate_step.m_light_intensity =
          model_thermal_emission s.simulate_step.m_max_temperature) ∧
      (¬ s.simulate_step.m_current_radius < 0.5 * s.m_ambient_radius_mm →
        s.simulate_step.m_max_temperature = 0 ∧
        s.simulate_step.m_light_intensity = 0)) := by
  have hcomm : (t_in_period s < 0.9 * period s) ↔
      (t_in_period s < period s * 0.9) := by rw [mul_comm]
  refine ⟨rfl, fun hlt => ?_, fun hge => ?_⟩
  · have hrad : s.simulate_step.m_current_radius = expansion_radius s := by
      rw [step_expansion (hcomm.mp hlt)]
    rw [hrad]
    unfold expansion_radius
    rw [show t_in_period s / period s * Real.pi =
          Real.pi * t_in_period s / period s from by ring]
    ring
  · have hge' : ¬ t_in_period s < period s * 0.9 := fun hx => hge (hcomm.mpr hx)
    by_cases hsev : collapse_radius s < s.m_ambient_radius_mm * 0.5
    · have hrad : s.simulate_step.m_current_radius = collapse_radius s := by
        rw [step_severe hge' hsev]
      have htemp : s.simulate_step.m_max_temperature =
          50000 * (s.m_ambient_radius_mm * 0.5 / collapse_radius s) := by
        rw [step_severe hge' hsev]
      have hlight : s.simulate_step.m_light_intensity =
          model_thermal_emission
            (50000 * (s.m_ambient_radius_mm * 0.5 / collapse_radius s)) := by
        rw [step_severe hge' hsev]
      rw [hrad, htemp, hlight]
      refine ⟨?_, fun hcond => ⟨by ring, rfl⟩,
        fun hns => absurd (by linarith) hns⟩
      unfold collapse_radius
      rw [show (t_in_period s - period s * 0.9) / (period s * 0.1) * Real.pi =
            Real.pi * (t_in_period s - 0.9 * period s) / (0.1 * period s)
          from by ring]
    · have hrad : s.simulate_step.m_current_radius = collapse_radius s := by
        rw [step_mild hge' hsev]
      have htemp : s.simulate_step.m_max_temperature = 0 := by
        rw [step_mild hge' hsev]
      have hlight : s.simulate_step.m_light_intensity = 0 := by
        rw [step_mild hge' hsev]
      rw [hrad, htemp, hlight]
      refine ⟨?_, fun hcond => absurd (show collapse_radius s <
          s.m_ambient_radius_mm * 0.5 from by linarith) hsev,
        fun hns => ⟨rfl, rfl⟩⟩
      unfold collapse_radius
      rw [show (t_in_period s - period s * 0.9) / (period s * 0.1) * Real.pi =
            Real.pi * (t_in_period s - 0.9 * period s) / (0.1 * period s)
          from by ring]

/-- Witness for C4 at the default configuration. -/
theorem spec_C4_witness :
    0 < s0.m_frequency_hz ∧
      (t_in_period s0 = fmod (s0.m_time + 1 / 60) (1 / s0.m_frequency_hz) ∧
      (t_in_period s0 < 0.9 * period s0 →
        s0.simulate_step.m_current_radius =
          s0.m_ambient_radius_mm *
            (1 + Real.sin (Real.pi * t_in_period s0 / period s0))) ∧
      (¬ t_in_period s0 < 0.9 * period s0 →
        s0.simulate_step.m_current_radius =
          s0.m_ambient_radius_mm *
            (1 - 0.5 * Real.sin
              (Real.pi * (t_in_period s0 - 0.9 * period s0) /
                (0.1 * period s0))) ∧
        (s0.simulate_step.m_current_radius <
            0.5 * s0.m_ambient_radius_mm →
          s0.simulate_step.m_max_temperature =
            50000 * (0.5 * s0.m_ambient_radius_mm /
              s0.simulate_step.m_current_radius) ∧
          s0.simulate_step.m_light_intensity =
            model_thermal_emission s0.simulate_step.m_max_temperature) ∧
        (¬ s0.simulate_step.m_current_radius <
            0.5 * s0.m_ambient_radius_mm →
          s0.simulate_step.m_max_temperature = 0 ∧
          s0.simulate_step.m_light_intensity = 0))) := by
  have hf : 0 < s0.m_frequency_hz := by rw [s0_fields.1]; norm_num
  exact ⟨hf, spec_C4 s0 hf⟩

/-- C5: after any step from a reachable state, the emitted light is positive
exactly when the peak temperature computed at that step reached the emission
floor of 1000; moreover `model_thermal_emission T` is positive iff
`1000 ≤ T`. -/
theorem spec_C5 (s : SonolumiPhysics) (h : Reachable s) :
    (0 < s.simulate_step.get_emitted_light ↔
      1000 ≤ s.simulate_step.get_max_temperature) ∧
    ∀ T : ℝ, 0 < model_thermal_emission T ↔ 1000 ≤ T := by
  obtain ⟨-, ht, hl⟩ := reachable_inv (Reachable.step h)
  constructor
  · unfold SonolumiPhysics.get_emitted_light SonolumiPhysics.get_max_temperature
    rw [ht, hl]
    constructor
    · intro hx; exact absurd hx (lt_irrefl 0)
    · intro hx; norm_num at hx
  · intro T
    unfold model_thermal_emission
    by_cases hT : T < 1000
    · rw [if_pos hT]
      constructor
      · intro hx; exact absurd hx (lt_irrefl 0)
      · intro hx; linarith
    · rw [if_neg hT]
      exact ⟨fun _ => by linarith [not_lt.mp hT], fun _ => Real.exp_pos _⟩

/-- Witness for C5 at the default configuration. -/
theorem spec_C5_witness :
    Reachable s0 ∧
      ((0 < s0.simulate_step.get_emitted_light ↔
        1000 ≤ s0.simulate_step.get_max_temperature) ∧
      ∀ T : ℝ, 0 < model_thermal_emission T ↔ 1000 ≤ T) :=
  ⟨s0_reachable, spec_C5 s0 s0_reachable⟩

/-- C6: neither the model-level `configure` nor the facade-level
`set_parameters` changes the elapsed simulation time; time is zeroed only by
construction. -/
theorem spec_C6 (sim : Simulator) (s : SonolumiPhysics)
    (f p a : ℝ) (g l : String) :
    (s.configure f p a g l).m_time = s.m_time ∧
    (sim.set_parameters f p a g l).physics.m_time = sim.physics.m_time ∧
    SonolumiPhysics.init.m_time = 0 ∧
    Simulator.init.physics.m_time = 0 :=
  ⟨rfl, rfl, rfl, rfl⟩

/-- C7: every `simulate_step` (hence every facade `step`) adds exactly `1/60`
to the elapsed time, so time strictly increases with each step, and after
`n` steps of a freshly constructed facade it equals `n * (1/60)`. -/
theorem spec_C7 (s : SonolumiPhysics) (sim : Simulator) (n : ℕ) :
    s.simulate_step.m_time = s.m_time + 1 / 60 ∧
    sim.step.physics.m_time = sim.physics.m_time + 1 / 60 ∧
    sim.physics.m_time < sim.step.physics.m_time ∧
    (Simulator.step^[n] Simulator.init).physics.m_time = n * (1 / 60) := by
  have hstep : ∀ sim0 : Simulator,
      sim0.step.physics.m_time = sim0.physics.m_time + 1 / 60 := by
    intro sim0
    show sim0.physics.simulate_step.m_time = _
    exact simulate_step_time sim0.physics
  refine ⟨simulate_step_time s, hstep sim, by rw [hstep sim]; norm_num, ?_⟩
  induction n with
  | zero => norm_num; rfl
  | succ k ih =>
      rw [Function.iterate_succ_apply', hstep, ih]
      push_cast
      ring

/-- C8: a step taken in the expansion phase updates the elapsed time, the
current radius and the peak temperature, but leaves the stored light
intensity untouched, so the light accessor keeps returning the previously
stored value. -/
theorem spec_C8 (s : SonolumiPhysics)
    (hexp : t_in_period s < 0.9 * period s) :
    s.simulate_step.m_light_intensity = s.m_light_intensity ∧
    s.simulate_step.get_emitted_light = s.get_emitted_light ∧
    s.simulate_step.m_time = s.m_time + 1 / 60 ∧
    s.simulate_step.m_current_radius = expansion_radius s ∧
    s.simulate_step.m_max_temperature = 0 := by
  have hcode : t_in_period s < period s * 0.9 := by linarith
  rw [step_expansion hcode]
  exact ⟨rfl, rfl, rfl, rfl, rfl⟩

/-- Witness for C8: the first step of the default configuration is an
expansion step and preserves the stored light intensity. -/
theorem spec_C8_witness :
    t_in_period s0 < 0.9 * period s0 ∧
      (s0.simulate_step.m_light_intensity = s0.m_light_intensity ∧
      s0.simulate_step.get_emitted_light = s0.get_emitted_light ∧
      s0.simulate_step.m_time = s0.m_time + 1 / 60 ∧
      s0.simulate_step.m_current_radius = expansion_radius s0 ∧
      s0.simulate_step.m_max_temperature = 0) := by
  have hexp : t_in_period s0 < 0.9 * period s0 := by
    rw [t_in_period_s0, period_s0]; norm_num
  exact ⟨hexp, spec_C8 s0 hexp⟩

/-- C9: two runs that configure identically and step the same number of
times read identical values from every accessor — the outputs are a function
of the parameters and the step count alone. -/
theorem spec_C9 (f p a : ℝ) (g l : String) (m : ℕ) (sim1 sim2 : Simulator)
    (h1 : sim1 = Simulator.set_parameters Simulator.init f p a g l)
    (h2 : sim2 = Simulator.set_parameters Simulator.init f p a g l) :
    (Simulator.step^[m] sim1).get_bubble_radius =
      (Simulator.step^[m] sim2).get_bubble_radius ∧
    (Simulator.step^[m] sim1).get_peak_temperature =
      (Simulator.step^[m] sim2).get_peak_temperature ∧
    (Simulator.step^[m] sim1).get_light_intensity =
      (Simulator.step^[m] sim2).get_light_intensity := by
  subst h1; subst h2; exact ⟨rfl, rfl, rfl⟩

/-- Witness for C9: two identically configured runs of three steps agree. -/
theorem spec_C9_witness :
    Simulator.set_parameters Simulator.init 20000 1.35 0.005 ("Argon")
        ("Water") =
      Simulator.set_parameters Simulator.init 20000 1.35 0.005 ("Argon")
        ("Water") ∧
    ((Simulator.step^[3]
        (Simulator.set_parameters Simulator.init 20000 1.35 0.005 ("Argon")
          ("Water"))).get_bubble_radius =
      (Simulator.step^[3]
        (Simulator.set_parameters Simulator.init 20000 1.35 0.005 ("Argon")
          ("Water"))).get_bubble_radius ∧
    (Simulator.step^[3]
        (Simulator.set_parameters Simulator.init 20000 1.35 0.005 ("Argon")
          ("Water"))).get_peak_temperature =
      (Simulator.step^[3]
        (Simulator.set_parameters Simulator.init 20000 1.35 0.005 ("Argon")
          ("Water"))).get_peak_temperature ∧
    (Simulator.step^[3]
        (Simulator.set_parameters Simulator.init 20000 1.35 0.005 ("Argon")
          ("Water"))).get_light_intensity =
      (Simulator.step^[3]
        (Simulator.set_parameters Simulator.init 20000 1.35 0.005 ("Argon")
          ("Water"))).get_light_intensity) :=
  ⟨rfl, spec_C9 20000 1.35 0.005 ("Argon") ("Water") 3 _ _ rfl rfl⟩

/-- Agreement of two physics states on all numeric fields (everything except
the gas and liquid label strings). -/
def numEq (s1 s2 : SonolumiPhysics) : Prop :=
  s1.m_frequency_hz = s2.m_frequency_hz ∧
  s1.m_pressure_atm = s2.m_pressure_atm ∧
  s1.m_ambient_radius_mm = s2.m_ambient_radius_mm ∧
  s1.m_time = s2.m_time ∧
  s1.m_current_radius = s2.m_current_radius ∧
  s1.m_max_temperature = s2.m_max_temperature ∧
  s1.m_light_intensity = s2.m_light_intensity

/-- `simulate_step` reads only numeric fields, so it preserves numeric
agreement: the label strings never enter the computation. -/
theorem numEq_step {s1 s2 : SonolumiPhysics} (h : numEq s1 s2) :
    numEq s1.simulate_step s2.simulate_step := by
  obtain ⟨hf, hp, ha, htm, hcr, hmt, hli⟩ := h
  have hper : period s1 = period s2 := by unfold period; rw [hf]
  have hnext : next_time s1 = next_time s2 := by unfold next_time; rw [htm]
  have htin : t_in_period s1 = t_in_period s2 := by
    unfold t_in_period; rw [hnext, hper]
  have hexp : expansion_radius s1 = expansion_radius s2 := by
    unfold expansion_radius; rw [ha, htin, hper]
  have hcol : collapse_radius s1 = collapse_radius s2 := by
    unfold collapse_radius; rw [ha, htin, hper]
  unfold SonolumiPhysics.simulate_step
  rw [htin, hper, hcol, hexp, hnext, ha]
  split_ifs
  · exact ⟨hf, hp, rfl, rfl, rfl, rfl, hli⟩
  · exact ⟨hf, hp, rfl, rfl, rfl, rfl, rfl⟩
  · exact ⟨hf, hp, rfl, rfl, rfl, rfl, rfl⟩

/-- Agreement of two facades on the physics numeric fields and all three
cached outputs. -/
def simNumEq (a b : Simulator) : Prop :=
  numEq a.physics b.physics ∧
  a.current_bubble_radius = b.current_bubble_radius ∧
  a.current_peak_temperature = b.current_peak_temperature ∧
  a.current_light_intensity = b.current_light_intensity

/-- `Simulator::step` preserves facade numeric agreement. -/
theorem simNumEq_step {a b : Simulator} (h : simNumEq a b) :
    simNumEq a.step b.step := by
  have hn := numEq_step h.1
  exact ⟨hn, hn.2.2.2.2.1, hn.2.2.2.2.2.1, hn.2.2.2.2.2.2⟩

/-- Configuring with the same numbers but different labels yields numerically
identical facades. -/
theorem simNumEq_init (f p a : ℝ) (g1 l1 g2 l2 : String) :
    simNumEq (Simulator.set_parameters Simulator.init f p a g1 l1)
      (Simulator.set_parameters Simulator.init f p a g2 l2) :=
  ⟨⟨rfl, rfl, rfl, rfl, rfl, rfl, rfl⟩, rfl, rfl, rfl⟩

/-- C10: two runs identical except for the gas and liquid labels read
identical numeric outputs from the facade caches and the model accessors
after every number of steps — the species labels are stored but inert. -/
theorem spec_C10 (f p a : ℝ) (g1 l1 g2 l2 : String) (m : ℕ) :
    (Simulator.step^[m]
        (Simulator.set_parameters Simulator.init f p a g1 l1)).get_bubble_radius =
      (Simulator.step^[m]
        (Simulator.set_parameters Simulator.init f p a g2 l2)).get_bubble_radius ∧
    (Simulator.step^[m]
        (Simulator.set_parameters Simulator.init f p a g1 l1)).get_peak_temperature =
      (Simulator.step^[m]
        (Simulator.set_parameters Simulator.init f p a g2 l2)).get_peak_temperature ∧
    (Simulator.step^[m]
        (Simulator.set_parameters Simulator.init f p a g1 l1)).get_light_intensity =
      (Simulator.step^[m]
        (Simulator.set_parameters Simulator.init f p a g2 l2)).get_light_intensity ∧
    (Simulator.step^[m]
        (Simulator.set_parameters Simulator.init f p a g1 l1)).physics.get_radius =
      (Simulator.step^[m]
        (Simulator.set_parameters Simulator.init f p a g2 l2)).physics.get_radius ∧
    (Simulator.step^[m]
        (Simulator.set_parameters Simulator.init f p a g1 l1)).physics.get_max_temperature =
      (Simulator.step^[m]
        (Simulator.set_parameters Simulator.init f p a g2 l2)).physics.get_max_temperature ∧
    (Simulator.step^[m]
        (Simulator.set_parameters Simulator.init f p a g1 l1)).physics.get_emitted_light =
      (Simulator.step^[m]
        (Simulator.set_parameters Simulator.init f p a g2 l2)).physics.get_emitted_light := by
  have hsim : simNumEq
      (Simulator.step^[m]
        (Simulator.set_parameters Simulator.init f p a g1 l1))
      (Simulator.step^[m]
        (Simulator.set_parameters Simulator.init f p a g2 l2)) := by
    induction m with
    | zero => exact simNumEq_init f p a g1 l1 g2 l2
    | succ k ih =>
        rw [Function.iterate_succ_apply', Function.iterate_succ_apply']
        exact simNumEq_step ih
  exact ⟨hsim.2.1, hsim.2.2.1, hsim.2.2.2, hsim.1.2.2.2.2.1,
    hsim.1.2.2.2.2.2.1, hsim.1.2.2.2.2.2.2⟩

end

end Sonolumi
